import Mathlib

/-!
Verification of the AIML pattern-matching engine (`aiml/PatternMgr.py`).

This file gives a shallow embedding of the `PatternMgr` class: the trie of
patterns, the `add` / `setBotName` / `numTemplates` operations, the recursive
backtracking matcher `_match`, the public `match` entry point, the wildcard
locator `wildcard`, and `save` / `restore`.  Templates are kept opaque via a
type parameter `α`.

Modelling notes:
* Python dicts are modelled as association lists (`Children`); key lookup is
  by first binding, insertion replaces the first binding or appends.  The
  source stores the template in the same dict under the sentinel key `"2"`;
  here the template lives in a separate slot of the node.  The two agree
  whenever no pattern word itself maps to the key `"2"` (in the source such a
  word would alias the template marker and corrupt the trie).
* Python strings are Lean `String`s; `str.split()`, `str.upper()`, the
  punctuation-stripping regex, the whitespace-collapsing regex and
  `' '.join` are implemented over the character list of the string.
* `_match` is defined by well-founded recursion (it descends into a child
  node on every recursive call).  A fuel-indexed twin `matchNodeF` is proved
  equal to it whenever the fuel is at least the height of the tree; the twin
  is structurally recursive, so concrete runs reduce by `decide` / `rfl`.
* Exceptions raised by `wildcard` (`ValueError`) are modelled with
  `Except String`.
-/

namespace Aiml

abbrev Key := String

/-- Special dictionary keys of `PatternMgr` (the source uses digit strings). -/
def _UNDERSCORE : Key := "0"

def _STAR : Key := "1"

def _TEMPLATE : Key := "2"

def _THAT : Key := "3"

def _TOPIC : Key := "4"

def _BOT_NAME : Key := "5"

def _CARET : Key := "6"

mutual
/-- A node of the pattern trie: the child dictionary plus the (optional)
template stored at this node. -/
inductive Node (α : Type) : Type where
  | mk : Children α → Option α → Node α

/-- The child dictionary of a node, as an association list. -/
inductive Children (α : Type) : Type where
  | nil : Children α
  | cons : Key → Node α → Children α → Children α
end

def Node.tmpl {α : Type} : Node α → Option α
  | .mk _ t => t

def Node.childList {α : Type} : Node α → Children α
  | .mk cs _ => cs

def emptyNode {α : Type} : Node α := .mk .nil none

/-- Dictionary lookup (`node[key]` / `key in node`). -/
def lookupC {α : Type} : Children α → Key → Option (Node α)
  | .nil, _ => none
  | .cons k' c rest, k => if k' = k then some c else lookupC rest k

def lookupChild {α : Type} : Node α → Key → Option (Node α)
  | .mk cs _, k => lookupC cs k

/-- Dictionary update (`node[key] = child`): replace the binding or append. -/
def setC {α : Type} : Children α → Key → Node α → Children α
  | .nil, k, c => .cons k c .nil
  | .cons k' c' rest, k, c =>
    if k' = k then .cons k' c rest else .cons k' c' (setC rest k c)

/-! ## Normalization helpers (model of the regex/string operations) -/

/-- Python `str` whitespace (as used by `split()`, `\s` and `strip()`). -/
def pyIsSpace (c : Char) : Bool :=
  c == ' ' || c == '\t' || c == '\n' || c == '\x0d' || c == '\x0b' || c == '\x0c'

def pySplitAux : List Char → List Char → List String
  | [], acc => if acc.isEmpty then [] else [⟨acc.reverse⟩]
  | c :: cs, acc =>
    if pyIsSpace c then
      (if acc.isEmpty then [] else [⟨acc.reverse⟩]) ++ pySplitAux cs []
    else pySplitAux cs (c :: acc)

/-- `s.split()`: split on whitespace runs, dropping empty pieces. -/
def pySplit (s : String) : List String := pySplitAux s.data []

/-- `s.upper()` (ASCII, as in the non-goals of the engine). -/
def pyUpper (s : String) : String := ⟨s.data.map Char.toUpper⟩

/-- The punctuation set of `PatternMgr.__init__`. -/
def punctuation : List Char :=
  ['`', '~', '!', '@', '#', '$', '%', '^', '&', '*', '(', ')', '-', '_', '=',
   '+', '[', '{', ']', '}', '\\', '|', ';', ':', Char.ofNat 39, '"', ',', '<',
   '.', '>', '/', '?']

/-- `re.sub(self._puncStripRE, " ", s)`: each punctuation char becomes a space. -/
def puncStrip (s : String) : String :=
  ⟨s.data.map (fun c => if punctuation.contains c then ' ' else c)⟩

def collapseAux : List Char → Bool → List Char
  | [], _ => []
  | c :: cs, prevWs =>
    if pyIsSpace c then
      (if prevWs then [] else [' ']) ++ collapseAux cs true
    else c :: collapseAux cs false

/-- `re.sub(self._whitespaceRE, " ", s)`: collapse each whitespace run to one space. -/
def pyCollapseWS (s : String) : String := ⟨collapseAux s.data false⟩

/-- Model of the test `s.strip() == u""`. -/
def pyStripIsEmpty (s : String) : Bool := s.data.all pyIsSpace

/-- `' '.join(ws)`. -/
def pyJoin (sep : String) : List String → String
  | [] => ""
  | [w] => w
  | w :: ws => w ++ sep ++ pyJoin sep ws

/-! ## The store and `add` -/

/-- The `PatternMgr` state: trie root, template count, bot name. -/
structure PatternMgr (α : Type) where
  root : Node α
  templateCount : Nat
  botName : String

/-- `PatternMgr.__init__`. -/
def PatternMgr.new {α : Type} : PatternMgr α :=
  { root := emptyNode, templateCount := 0, botName := "Nameless" }

/-- `numTemplates()`. -/
def PatternMgr.numTemplates {α : Type} (s : PatternMgr α) : Nat := s.templateCount

/-- `setBotName(name)`: collapse a multi-word name into a single word. -/
def PatternMgr.setBotName {α : Type} (s : PatternMgr α) (name : String) : PatternMgr α :=
  { s with botName := pyJoin " " (pySplit name) }

/-- Key substitution for words of the main pattern section of `add`. -/
def patternKey (w : String) : Key :=
  if w = "_" then _UNDERSCORE
  else if w = "*" then _STAR
  else if w = "^" then _CARET
  else if w = "BOT_NAME" then _BOT_NAME
  else w

/-- Key substitution for words of the `that` and `topic` sections of `add`. -/
def sectionKey (w : String) : Key :=
  if w = "_" then _UNDERSCORE
  else if w = "*" then _STAR
  else w

/-- The sequence of trie keys `add` walks for a `(pattern, that, topic)` triple:
pattern words, then a `THAT` edge and the that words when `that` is non-empty,
then a `TOPIC` edge and the topic words when `topic` is non-empty. -/
def keyPath (pattern that topic : String) : List Key :=
  (pySplit pattern).map patternKey
    ++ (if 0 < that.length then _THAT :: (pySplit that).map sectionKey else [])
    ++ (if 0 < topic.length then _TOPIC :: (pySplit topic).map sectionKey else [])

/-- Walk `ks` from `n`, creating missing nodes, and store the template at the
end (the final `node[self._TEMPLATE] = template`). -/
def insertPath {α : Type} : Node α → List Key → α → Node α
  | .mk cs _, [], t => .mk cs (some t)
  | .mk cs t0, k :: ks, t =>
    .mk (setC cs k (insertPath ((lookupC cs k).getD emptyNode) ks t)) t0

/-- Whether following `ks` from `n` reaches a node that already holds a
template (the `self._TEMPLATE not in node` test of `add`). -/
def hasTemplateAt {α : Type} : Node α → List Key → Bool
  | n, [] => n.tmpl.isSome
  | .mk cs _, k :: ks =>
    match lookupC cs k with
    | some c => hasTemplateAt c ks
    | none => false

/-- `add(data, template)`. -/
def PatternMgr.add {α : Type} (s : PatternMgr α) (data : String × String × String)
    (template : α) : PatternMgr α :=
  let ks := keyPath data.1 data.2.1 data.2.2
  { root := insertPath s.root ks template,
    templateCount := s.templateCount + (if hasTemplateAt s.root ks then 0 else 1),
    botName := s.botName }

/-! ## Size and height -/

theorem sizeOf_lookupC {α : Type} : ∀ {cs : Children α} {k : Key} {c : Node α},
    lookupC cs k = some c → sizeOf c < sizeOf cs
  | .nil, _, _, h => by simp [lookupC] at h
  | .cons k' c' rest, k, c, h => by
    simp only [lookupC] at h
    split at h
    · cases h; simp; omega
    · have := sizeOf_lookupC h
      simp; omega

theorem sizeOf_lookupChild {α : Type} {n : Node α} {k : Key} {c : Node α}
    (h : lookupChild n k = some c) : sizeOf c < sizeOf n := by
  cases n with
  | mk cs t =>
    simp only [lookupChild] at h
    have := sizeOf_lookupC h
    simp; omega

mutual
/-- Height of a trie node (template slots do not contribute). -/
def nodeHeight {α : Type} : Node α → Nat
  | .mk cs _ => 1 + childrenHeight cs

def childrenHeight {α : Type} : Children α → Nat
  | .nil => 0
  | .cons _ c rest => max (nodeHeight c) (childrenHeight rest)
end

theorem nodeHeight_pos {α : Type} (n : Node α) : 0 < nodeHeight n := by
  cases n; simp [nodeHeight]

theorem height_lookupC {α : Type} : ∀ {cs : Children α} {k : Key} {c : Node α},
    lookupC cs k = some c → nodeHeight c ≤ childrenHeight cs
  | .nil, _, _, h => by simp [lookupC] at h
  | .cons k' c' rest, k, c, h => by
    simp only [lookupC] at h
    split at h
    · cases h; simp [childrenHeight]
    · have := height_lookupC h
      simp only [childrenHeight]
      omega

theorem height_lookupChild {α : Type} {n : Node α} {k : Key} {c : Node α}
    (h : lookupChild n k = some c) : nodeHeight c < nodeHeight n := by
  cases n with
  | mk cs t =>
    simp only [lookupChild] at h
    have := height_lookupC h
    simp only [nodeHeight]
    omega

/-! ## The matcher `_match` -/

/-- Result of `_match`: the matched key path (or `None`) and the template (or
`None`), exactly the pair the source returns. -/
abbrev MatchRes (α : Type) := Option (List Key) × Option α

mutual
/-- `PatternMgr._match(words, thatWords, topicWords, root)`.

Base case (`words == []`): try a `CARET` child with the empty word list,
else (`elif`) descend into `THAT` when `thatWords` is non-empty, else into
`TOPIC` when `topicWords` is non-empty; if no template was produced, fall
back to the template stored at this node.

Recursive case: try, in order, `UNDERSCORE` (every suffix of `words[1:]`,
including the empty one), the literal first word, `BOT_NAME` (when the first
word equals the stored bot name; note the source prepends the *input word*
to the path here), `CARET` (every suffix of `words`, so the caret may match
zero words), and `STAR`; the first branch that yields a template wins. -/
def matchNode {α : Type} (botName : String) (words thatWords topicWords : List String)
    (root : Node α) : MatchRes α :=
  match words with
  | [] =>
    let pt : MatchRes α :=
      match _h : lookupChild root _CARET with
      | some cnode =>
        let r := matchNode botName [] thatWords topicWords cnode
        if r.2.isSome then (some (_CARET :: r.1.getD []), r.2) else r
      | none =>
        if thatWords ≠ [] then
          match _h : lookupChild root _THAT with
          | some tn =>
            let r := matchNode botName thatWords [] topicWords tn
            (r.1.map (fun p => _THAT :: p), r.2)
          | none => (some [], none)
        else if topicWords ≠ [] then
          match _h : lookupChild root _TOPIC with
          | some tn =>
            let r := matchNode botName topicWords [] [] tn
            (r.1.map (fun p => _TOPIC :: p), r.2)
          | none => (some [], none)
        else (some [], none)
    if pt.2.isSome then pt else (some [], root.tmpl)
  | first :: suffix =>
    let ru : MatchRes α :=
      match _h : lookupChild root _UNDERSCORE with
      | some c => tryTails botName suffix.tails thatWords topicWords c
      | none => (none, none)
    if ru.2.isSome then (some (_UNDERSCORE :: ru.1.getD []), ru.2)
    else
      let rl : MatchRes α :=
        match _h : lookupChild root first with
        | some c => matchNode botName suffix thatWords topicWords c
        | none => (none, none)
      if rl.2.isSome then (some (first :: rl.1.getD []), rl.2)
      else
        let rb : MatchRes α :=
          match _h : lookupChild root _BOT_NAME with
          | some c =>
            if first = botName then matchNode botName suffix thatWords topicWords c
            else (none, none)
          | none => (none, none)
        if rb.2.isSome then (some (first :: rb.1.getD []), rb.2)
        else
          let rc : MatchRes α :=
            match _h : lookupChild root _CARET with
            | some c => tryTails botName (first :: suffix).tails thatWords topicWords c
            | none => (none, none)
          if rc.2.isSome then (some (_CARET :: rc.1.getD []), rc.2)
          else
            let rs : MatchRes α :=
              match _h : lookupChild root _STAR with
              | some c => tryTails botName suffix.tails thatWords topicWords c
              | none => (none, none)
            if rs.2.isSome then (some (_STAR :: rs.1.getD []), rs.2)
            else (none, none)
termination_by (sizeOf root, 0)
decreasing_by
  all_goals apply Prod.Lex.left
  all_goals exact sizeOf_lookupChild (by assumption)

/-- The `for j in range(...): suf = ...[j:]` loops of `_match`: try each
candidate suffix against `child`, returning on the first template found. -/
def tryTails {α : Type} (botName : String) (cands : List (List String))
    (thatWords topicWords : List String) (child : Node α) : MatchRes α :=
  match cands with
  | [] => (none, none)
  | suf :: rest =>
    let r := matchNode botName suf thatWords topicWords child
    if r.2.isSome then r else tryTails botName rest thatWords topicWords child
termination_by (sizeOf child, 1 + cands.length)
decreasing_by
  · apply Prod.Lex.right; omega
  · apply Prod.Lex.right; simp
end

/-! ## The fuel-indexed twin of the matcher -/

def tryTailsF {α : Type} (f : List String → MatchRes α) : List (List String) → MatchRes α
  | [] => (none, none)
  | suf :: rest =>
    let r := f suf
    if r.2.isSome then r else tryTailsF f rest

/-- Structurally recursive twin of `matchNode`; out of fuel it returns the
no-match pair.  `matchNodeF_eq` below shows it computes `matchNode` whenever
`fuel` is at least the height of the tree. -/
def matchNodeF {α : Type} :
    Nat → String → List String → List String → List String → Node α → MatchRes α
  | 0, _, _, _, _, _ => (none, none)
  | fuel + 1, botName, words, thatWords, topicWords, root =>
    match words with
    | [] =>
      let pt : MatchRes α :=
        match lookupChild root _CARET with
        | some cnode =>
          let r := matchNodeF fuel botName [] thatWords topicWords cnode
          if r.2.isSome then (some (_CARET :: r.1.getD []), r.2) else r
        | none =>
          if thatWords ≠ [] then
            match lookupChild root _THAT with
            | some tn =>
              let r := matchNodeF fuel botName thatWords [] topicWords tn
              (r.1.map (fun p => _THAT :: p), r.2)
            | none => (some [], none)
          else if topicWords ≠ [] then
            match lookupChild root _TOPIC with
            | some tn =>
              let r := matchNodeF fuel botName topicWords [] [] tn
              (r.1.map (fun p => _TOPIC :: p), r.2)
            | none => (some [], none)
          else (some [], none)
      if pt.2.isSome then pt else (some [], root.tmpl)
    | first :: suffix =>
      let ru : MatchRes α :=
        match lookupChild root _UNDERSCORE with
        | some c =>
          tryTailsF (fun suf => matchNodeF fuel botName suf thatWords topicWords c)
            suffix.tails
        | none => (none, none)
      if ru.2.isSome then (some (_UNDERSCORE :: ru.1.getD []), ru.2)
      else
        let rl : MatchRes α :=
          match lookupChild root first with
          | some c => matchNodeF fuel botName suffix thatWords topicWords c
          | none => (none, none)
        if rl.2.isSome then (some (first :: rl.1.getD []), rl.2)
        else
          let rb : MatchRes α :=
            match lookupChild root _BOT_NAME with
            | some c =>
              if first = botName then matchNodeF fuel botName suffix thatWords topicWords c
              else (none, none)
            | none => (none, none)
          if rb.2.isSome then (some (first :: rb.1.getD []), rb.2)
          else
            let rc : MatchRes α :=
              match lookupChild root _CARET with
              | some c =>
                tryTailsF (fun suf => matchNodeF fuel botName suf thatWords topicWords c)
                  (first :: suffix).tails
              | none => (none, none)
            if rc.2.isSome then (some (_CARET :: rc.1.getD []), rc.2)
            else
              let rs : MatchRes α :=
                match lookupChild root _STAR with
                | some c =>
                  tryTailsF (fun suf => matchNodeF fuel botName suf thatWords topicWords c)
                    suffix.tails
                | none => (none, none)
              if rs.2.isSome then (some (_STAR :: rs.1.getD []), rs.2)
              else (none, none)

theorem tryTailsF_eq {α : Type} {botName : String} {thatWords topicWords : List String}
    {child : Node α} {f : List String → MatchRes α}
    (hf : ∀ suf, f suf = matchNode botName suf thatWords topicWords child) :
    ∀ cands, tryTailsF f cands = tryTails botName cands thatWords topicWords child
  | [] => by simp [tryTailsF, tryTails]
  | suf :: rest => by
    rw [tryTailsF, tryTails]
    simp only [hf, tryTailsF_eq hf rest]

theorem matchNodeF_eq {α : Type} (botName : String) :
    ∀ (fuel : Nat) (root : Node α), nodeHeight root ≤ fuel →
    ∀ (words thatWords topicWords : List String),
    matchNodeF fuel botName words thatWords topicWords root
      = matchNode botName words thatWords topicWords root := by
  intro fuel
  induction fuel with
  | zero =>
    intro root h
    have := nodeHeight_pos root
    omega
  | succ f ih =>
    intro root hroot words thatWords topicWords
    have hchild : ∀ (k : Key) (c : Node α), lookupChild root k = some c →
        ∀ (w tw tp : List String),
        matchNodeF f botName w tw tp c = matchNode botName w tw tp c := by
      intro k c hc w tw tp
      have := height_lookupChild hc
      exact ih c (by omega) w tw tp
    rw [matchNode.eq_def]
    show (match words with
      | [] => _
      | first :: suffix => _) = _
    cases words with
    | nil =>
      have h6 : (match lookupChild root _CARET with
          | some cnode =>
            let r := matchNodeF f botName [] thatWords topicWords cnode
            if r.2.isSome then (some (_CARET :: r.1.getD []), r.2) else r
          | none =>
            if thatWords ≠ [] then
              match lookupChild root _THAT with
              | some tn =>
                let r := matchNodeF f botName thatWords [] topicWords tn
                (r.1.map (fun p => _THAT :: p), r.2)
              | none => ((some [] : Option (List Key)), (none : Option α))
            else if topicWords ≠ [] then
              match lookupChild root _TOPIC with
              | some tn =>
                let r := matchNodeF f botName topicWords [] [] tn
                (r.1.map (fun p => _TOPIC :: p), r.2)
              | none => (some [], none)
            else (some [], none))
          = (match _h : lookupChild root _CARET with
          | some cnode =>
            let r := matchNode botName [] thatWords topicWords cnode
            if r.2.isSome then (some (_CARET :: r.1.getD []), r.2) else r
          | none =>
            if thatWords ≠ [] then
              match _h : lookupChild root _THAT with
              | some tn =>
                let r := matchNode botName thatWords [] topicWords tn
                (r.1.map (fun p => _THAT :: p), r.2)
              | none => (some [], none)
            else if topicWords ≠ [] then
              match _h : lookupChild root _TOPIC with
              | some tn =>
                let r := matchNode botName topicWords [] [] tn
                (r.1.map (fun p => _TOPIC :: p), r.2)
              | none => (some [], none)
            else (some [], none)) := by
        cases hc : lookupChild root _CARET with
        | some cnode => simp only [hchild _ _ hc]
        | none =>
          by_cases ht : thatWords = []
          · subst ht
            by_cases htp : topicWords = []
            · subst htp; rfl
            · simp only [ne_eq, not_true_eq_false, if_false, htp, not_false_iff, if_true]
              cases hc4 : lookupChild root _TOPIC with
              | some tn => simp only [hchild _ _ hc4]
              | none => rfl
          · simp only [ne_eq, ht, not_false_iff, if_true]
            cases hc3 : lookupChild root _THAT with
            | some tn => simp only [hchild _ _ hc3]
            | none => rfl
      simp only [matchNodeF]
      rw [h6]
    | cons first suffix =>
      have hu : (match lookupChild root _UNDERSCORE with
          | some c =>
            tryTailsF (fun suf => matchNodeF f botName suf thatWords topicWords c)
              suffix.tails
          | none => ((none : Option (List Key)), (none : Option α)))
          = (match _h : lookupChild root _UNDERSCORE with
          | some c => tryTails botName suffix.tails thatWords topicWords c
          | none => (none, none)) := by
        cases hc : lookupChild root _UNDERSCORE with
        | some c => exact tryTailsF_eq (fun suf => hchild _ _ hc suf _ _) _
        | none => rfl
      have hl : (match lookupChild root first with
          | some c => matchNodeF f botName suffix thatWords topicWords c
          | none => ((none : Option (List Key)), (none : Option α)))
          = (match _h : lookupChild root first with
          | some c => matchNode botName suffix thatWords topicWords c
          | none => (none, none)) := by
        cases hc : lookupChild root first with
        | some c => exact hchild _ _ hc _ _ _
        | none => rfl
      have hb : (match lookupChild root _BOT_NAME with
          | some c =>
            if first = botName then matchNodeF f botName suffix thatWords topicWords c
            else ((none : Option (List Key)), (none : Option α))
          | none => (none, none))
          = (match _h : lookupChild root _BOT_NAME with
          | some c =>
            if first = botName then matchNode botName suffix thatWords topicWords c
            else (none, none)
          | none => (none, none)) := by
        cases hc : lookupChild root _BOT_NAME with
        | some c => simp only [hchild _ _ hc]
        | none => rfl
      have hcrt : (match lookupChild root _CARET with
          | some c =>
            tryTailsF (fun suf => matchNodeF f botName suf thatWords topicWords c)
              (first :: suffix).tails
          | none => ((none : Option (List Key)), (none : Option α)))
          = (match _h : lookupChild root _CARET with
          | some c => tryTails botName (first :: suffix).tails thatWords topicWords c
          | none => (none, none)) := by
        cases hc : lookupChild root _CARET with
        | some c => exact tryTailsF_eq (fun suf => hchild _ _ hc suf _ _) _
        | none => rfl
      have hs : (match lookupChild root _STAR with
          | some c =>
            tryTailsF (fun suf => matchNodeF f botName suf thatWords topicWords c)
              suffix.tails
          | none => ((none : Option (List Key)), (none : Option α)))
          = (match _h : lookupChild root _STAR with
          | some c => tryTails botName suffix.tails thatWords topicWords c
          | none => (none, none)) := by
        cases hc : lookupChild root _STAR with
        | some c => exact tryTailsF_eq (fun suf => hchild _ _ hc suf _ _) _
        | none => rfl
      simp only [matchNodeF]
      rw [hu, hl, hb, hcrt, hs]

end Aiml

namespace Aiml

/-! ## The public `match` entry point -/

/-- The final `if template is None or patMatch is None: return None` step. -/
def matchPost {α : Type} : MatchRes α → Option (List Key × α)
  | (some p, some t) => some (p, t)
  | (none, _) => none
  | (_, none) => none

/-- `match(pattern, that, topic)`: normalize the inputs (uppercase,
punctuation to spaces; empty `that`/`topic` replaced by the dummy sentinels)
and run `_match` from the root.  An empty input string short-circuits to
`None` before any matching. -/
def PatternMgr.match {α : Type} (s : PatternMgr α) (pattern that topic : String) :
    Option (List Key × α) :=
  if pattern.length = 0 then none
  else
    let input_ := puncStrip (pyUpper pattern)
    let that1 := if pyStripIsEmpty that then "ULTRABOGUSDUMMYTHAT" else that
    let thatInput := pyCollapseWS (puncStrip (pyUpper that1))
    let topic1 := if pyStripIsEmpty topic then "ULTRABOGUSDUMMYTOPIC" else topic
    let topicInput := puncStrip (pyUpper topic1)
    matchPost (matchNode s.botName (pySplit input_) (pySplit thatInput)
      (pySplit topicInput) s.root)

/-- `match` with the fuel-indexed matcher (used to evaluate concrete runs). -/
def PatternMgr.matchF {α : Type} (s : PatternMgr α) (pattern that topic : String) :
    Option (List Key × α) :=
  if pattern.length = 0 then none
  else
    let input_ := puncStrip (pyUpper pattern)
    let that1 := if pyStripIsEmpty that then "ULTRABOGUSDUMMYTHAT" else that
    let thatInput := pyCollapseWS (puncStrip (pyUpper that1))
    let topic1 := if pyStripIsEmpty topic then "ULTRABOGUSDUMMYTOPIC" else topic
    let topicInput := puncStrip (pyUpper topic1)
    matchPost (matchNodeF (nodeHeight s.root) s.botName (pySplit input_) (pySplit thatInput)
      (pySplit topicInput) s.root)

theorem PatternMgr.match_eq_F {α : Type} (s : PatternMgr α) (pattern that topic : String) :
    s.match pattern that topic = s.matchF pattern that topic := by
  simp only [PatternMgr.match, PatternMgr.matchF,
    matchNodeF_eq s.botName (nodeHeight s.root) s.root (Nat.le_refl _)]

/-! ## The wildcard locator -/

/-- State of the word-by-word walk of `wildcard` (the variables
`foundTheRightWildcard, start, end, j, numStars, numCarets, k`).  `end` is an
integer because the source can set `end = k - 1` with `k = 0`. -/
structure WalkSt where
  found : Bool
  start : Nat
  endI : Int
  j : Nat
  numStars : Nat
  numCarets : Nat
  k : Nat

def initWalk : WalkSt := ⟨false, 0, 0, 0, 0, 0, 0⟩

/-- First index `k0 ≥ i` such that `ws[k0] = target`. -/
def findFrom (ws : List String) (target : Key) (i : Nat) : Option Nat :=
  (List.findIdx? (fun w => w = target) (ws.drop i)).map (· + i)

/-- The inner `for k in range(i, len(words))` scan of the locator.  Returns
the new `end`, the new `k`, and whether the resumption point is `i` itself
(the zero-length-caret test `_i == i`).  If the wildcard is the last pattern
element, `end = len(words)`; if the next pattern element reappears at `k0`,
`end = k0 - 1`; otherwise `end` is left unchanged and `k` ends at
`len(words) - 1`. -/
def scanSpan (patMatch : List Key) (words : List String) (j i : Nat) (e0 : Int) :
    Int × Nat × Bool :=
  if j + 1 = patMatch.length then ((words.length : Int), i, false)
  else
    match findFrom words (patMatch.getD (j + 1) "") i with
    | some k0 => ((k0 : Int) - 1, k0, k0 = i)
    | none => (e0, words.length - 1, false)

/-- The outer `for i in range(len(words))` loop of `wildcard`.  The first
`Nat` argument is the number of remaining iterations (initially
`words.length`), the second is `i`.  `i < k` skips an already-scanned span;
`j = len(patMatch)` stops the walk; a star/underscore entry bumps the shared
`numStars` counter, a caret entry bumps `numCarets`; reaching the requested
`index` marks `found` when the entry kind agrees with the requested kind, and
the walk stops; otherwise the pattern cursor advances (twice over a
zero-length caret). -/
def wildLoop (patMatch : List Key) (words : List String) (index : Nat)
    (starKind caretKind : Bool) : Nat → Nat → WalkSt → WalkSt
  | 0, _, st => st
  | n + 1, i, st =>
    if i < st.k then wildLoop patMatch words index starKind caretKind n (i + 1) st
    else if st.j = patMatch.length then st
    else if st.found then
      wildLoop patMatch words index starKind caretKind n (i + 1) { st with j := st.j + 1 }
    else
      let pj := patMatch.getD st.j ""
      if pj = _STAR ∨ pj = _UNDERSCORE then
        let ns := st.numStars + 1
        let fnd := if ns = index then starKind else st.found
        let (e, k, _) := scanSpan patMatch words st.j i st.endI
        let st' : WalkSt :=
          { st with numStars := ns, found := fnd, start := i, endI := e, k := k }
        if st'.found then st'
        else wildLoop patMatch words index starKind caretKind n (i + 1) { st' with j := st'.j + 1 }
      else if pj = _CARET then
        let nc := st.numCarets + 1
        let fnd := if nc = index then caretKind else st.found
        let (e, k, zero) := scanSpan patMatch words st.j i st.endI
        let st' : WalkSt :=
          { st with numCarets := nc, found := fnd, start := i, endI := e, k := k,
                    j := st.j + (if zero then 1 else 0) }
        if st'.found then st'
        else wildLoop patMatch words index starKind caretKind n (i + 1) { st' with j := st'.j + 1 }
      else
        wildLoop patMatch words index starKind caretKind n (i + 1) { st with j := st.j + 1 }

/-- The python error message of an unknown wildcard kind (modelled without
quote characters). -/
def kindErrMsg : String := "wildcardType must be in [caret, star, thatstar, topicstar]"

/-- Everything `wildcard` does after the `_match` call: return `""` when no
template was found (before any kind validation); slice the matched path at
the `THAT` / `TOPIC` sentinels (`list.index` raises `ValueError` when the
sentinel is absent); reject unknown kinds; walk the slice against the
normalized words; and extract the captured span from the original
(pre-normalization) text of the corresponding argument. -/
def wildcardPost {α : Type} (wildcardType : String) (index : Nat) (res : MatchRes α)
    (input_ thatInput topicInput pattern that1 topic1 : String) :
    Except String String :=
  if res.2.isNone then .ok ""
  else
    let patMatch := res.1.getD []
    let dispatch : Except String (List Key × List String × List String) :=
      if wildcardType = "caret" then
        match List.findIdx? (fun x => x = _THAT) patMatch with
        | some a => .ok (patMatch.take a, pySplit input_, pySplit pattern)
        | none => .error "ValueError: 3 is not in list"
      else if wildcardType = "star" then
        match List.findIdx? (fun x => x = _THAT) patMatch with
        | some a => .ok (patMatch.take a, pySplit input_, pySplit pattern)
        | none => .error "ValueError: 3 is not in list"
      else if wildcardType = "thatstar" then
        match List.findIdx? (fun x => x = _THAT) patMatch with
        | some a =>
          match List.findIdx? (fun x => x = _TOPIC) patMatch with
          | some b =>
            .ok ((patMatch.drop (a + 1)).take (b - (a + 1)), pySplit thatInput, pySplit that1)
          | none => .error "ValueError: 4 is not in list"
        | none => .error "ValueError: 3 is not in list"
      else if wildcardType = "topicstar" then
        match List.findIdx? (fun x => x = _TOPIC) patMatch with
        | some b => .ok (patMatch.drop (b + 1), pySplit topicInput, pySplit topic1)
        | none => .error "ValueError: 4 is not in list"
      else .error kindErrMsg
    match dispatch with
    | .error e => .error e
    | .ok (slice, words, orig) =>
      let starKind := (wildcardType == "star") || (wildcardType == "thatstar")
        || (wildcardType == "topicstar")
      let caretKind := wildcardType == "caret"
      let st := wildLoop slice words index starKind caretKind words.length 0 initWalk
      if st.found then
        .ok (pyJoin " " ((orig.drop st.start).take (st.endI + 1 - (st.start : Int)).toNat))
      else .ok ""

/-- `wildcard(wildcardType, pattern, that, topic, index)`.  Raised
`ValueError`s are modelled as `Except.error`. -/
def PatternMgr.wildcard {α : Type} (s : PatternMgr α)
    (wildcardType pattern that topic : String) (index : Nat) : Except String String :=
  let input_ := pyCollapseWS (puncStrip (pyUpper pattern))
  let that1 := if pyStripIsEmpty that then "ULTRABOGUSDUMMYTHAT" else that
  let thatInput := pyCollapseWS (puncStrip (pyUpper that1))
  let topic1 := if pyStripIsEmpty topic then "ULTRABOGUSDUMMYTOPIC" else topic
  let topicInput := pyCollapseWS (puncStrip (pyUpper topic1))
  wildcardPost wildcardType index
    (matchNode s.botName (pySplit input_) (pySplit thatInput) (pySplit topicInput) s.root)
    input_ thatInput topicInput pattern that1 topic1

/-- `wildcard` with the fuel-indexed matcher (used to evaluate concrete runs). -/
def PatternMgr.wildcardF {α : Type} (s : PatternMgr α)
    (wildcardType pattern that topic : String) (index : Nat) : Except String String :=
  let input_ := pyCollapseWS (puncStrip (pyUpper pattern))
  let that1 := if pyStripIsEmpty that then "ULTRABOGUSDUMMYTHAT" else that
  let thatInput := pyCollapseWS (puncStrip (pyUpper that1))
  let topic1 := if pyStripIsEmpty topic then "ULTRABOGUSDUMMYTOPIC" else topic
  let topicInput := pyCollapseWS (puncStrip (pyUpper topic1))
  wildcardPost wildcardType index
    (matchNodeF (nodeHeight s.root) s.botName (pySplit input_) (pySplit thatInput)
      (pySplit topicInput) s.root)
    input_ thatInput topicInput pattern that1 topic1

theorem PatternMgr.wildcard_eq_F {α : Type} (s : PatternMgr α)
    (wildcardType pattern that topic : String) (index : Nat) :
    s.wildcard wildcardType pattern that topic index
      = s.wildcardF wildcardType pattern that topic index := by
  simp only [PatternMgr.wildcard, PatternMgr.wildcardF,
    matchNodeF_eq s.botName (nodeHeight s.root) s.root (Nat.le_refl _)]

/-! ## Persistence -/

/-- The serialized state: `save` marshals `templateCount`, `botName` and the
root node, in that order; the byte-level encoding (python `marshal`) is
treated as a faithful opaque container. -/
structure Blob (α : Type) where
  templateCount : Nat
  botName : String
  root : Node α

/-- `save(filename)` (the serialized payload, file I/O aside). -/
def PatternMgr.save {α : Type} (s : PatternMgr α) : Blob α :=
  { templateCount := s.templateCount, botName := s.botName, root := s.root }

/-- `restore(filename)`: the loaded fields fully replace the current state. -/
def PatternMgr.restore {α : Type} (b : Blob α) : PatternMgr α :=
  { root := b.root, templateCount := b.templateCount, botName := b.botName }

end Aiml


namespace Aiml

/-! ## Counting lemmas for `numTemplates` -/

/-- Fold a list of `add` calls over a store. -/
def addAll {α : Type} (s : PatternMgr α) (l : List ((String × String × String) × α)) :
    PatternMgr α :=
  l.foldl (fun acc p => acc.add p.1 p.2) s

/-- The key path of a `(pattern, that, topic)` triple. -/
def keyPath3 (d : String × String × String) : List Key := keyPath d.1 d.2.1 d.2.2

theorem lookupC_setC_self {α : Type} :
    ∀ (cs : Children α) (k : Key) (c : Node α), lookupC (setC cs k c) k = some c
  | .nil, k, c => by simp [setC, lookupC]
  | .cons k' c' rest, k, c => by
    by_cases h : k' = k
    · simp [setC, lookupC, h]
    · simp only [setC, if_neg h, lookupC, if_neg h]
      exact lookupC_setC_self rest k c

theorem lookupC_setC_other {α : Type} :
    ∀ (cs : Children α) (k k' : Key) (c : Node α), k ≠ k' →
      lookupC (setC cs k c) k' = lookupC cs k'
  | .nil, k, k', c, h => by simp [setC, lookupC, h]
  | .cons k2 c2 rest, k, k', c, h => by
    by_cases h2 : k2 = k
    · subst h2; simp [setC, lookupC, h]
    · simp only [setC, if_neg h2, lookupC]
      by_cases h3 : k2 = k'
      · simp [h3]
      · simp only [if_neg h3]
        exact lookupC_setC_other rest k k' c h

theorem hasTemplateAt_empty {α : Type} : ∀ ks, hasTemplateAt (emptyNode : Node α) ks = false
  | [] => by simp [hasTemplateAt, emptyNode, Node.tmpl]
  | _ :: _ => by simp [hasTemplateAt, emptyNode, lookupC]

theorem hasTemplateAt_insertPath {α : Type} :
    ∀ (ks : List Key) (n : Node α) (ks' : List Key) (t : α),
      (hasTemplateAt (insertPath n ks t) ks' = true
        ↔ (hasTemplateAt n ks' = true ∨ ks' = ks))
  | [], .mk cs t0, ks', t => by
    cases ks' with
    | nil => simp [insertPath, hasTemplateAt, Node.tmpl]
    | cons k' kt' => simp [insertPath, hasTemplateAt]
  | k :: kt, .mk cs t0, ks', t => by
    cases ks' with
    | nil => simp [insertPath, hasTemplateAt, Node.tmpl]
    | cons k' kt' =>
      by_cases hk : k' = k
      · subst hk
        have hset := lookupC_setC_self cs k' (insertPath ((lookupC cs k').getD emptyNode) kt t)
        simp only [insertPath, hasTemplateAt, hset]
        rw [hasTemplateAt_insertPath kt ((lookupC cs k').getD emptyNode) kt' t]
        cases hc : lookupC cs k' with
        | some c0 => simp [hc]
        | none => simp [hc, hasTemplateAt_empty]
      · have hset := lookupC_setC_other cs k k'
          (insertPath ((lookupC cs k).getD emptyNode) kt t) (fun h => hk h.symm)
        simp only [insertPath, hasTemplateAt, hset]
        have hne : ¬(k' :: kt' = k :: kt) := by
          intro h; exact hk (List.cons.injEq .. ▸ h).1
        cases hc : lookupC cs k' with
        | some c0 => simp [hne]
        | none => simp [hne]

theorem templateCount_addAll {α : Type} :
    ∀ (l : List ((String × String × String) × α)) (s : PatternMgr α)
      (S : Finset (List Key)),
      (∀ ks, hasTemplateAt s.root ks = true ↔ ks ∈ S) →
      (addAll s l).templateCount
        = s.templateCount + (((l.map (fun p => keyPath3 p.1)).toFinset) \ S).card
  | [], s, S, hS => by simp [addAll]
  | p :: l', s, S, hS => by
    have hstep : addAll s (p :: l') = addAll (s.add p.1 p.2) l' := by
      simp [addAll]
    set ks := keyPath3 p.1 with hks
    have hroot : (s.add p.1 p.2).root = insertPath s.root ks p.2 := rfl
    have hcount : (s.add p.1 p.2).templateCount
        = s.templateCount + (if hasTemplateAt s.root ks then 0 else 1) := rfl
    have hS' : ∀ ks', hasTemplateAt (s.add p.1 p.2).root ks' = true ↔ ks' ∈ insert ks S := by
      intro ks'
      rw [hroot, hasTemplateAt_insertPath, hS ks', Finset.mem_insert]
      tauto
    have IH := templateCount_addAll l' (s.add p.1 p.2) (insert ks S) hS'
    rw [hstep, IH, hcount]
    have hsdiff : ((l'.map (fun p => keyPath3 p.1)).toFinset) \ insert ks S
        = (((l'.map (fun p => keyPath3 p.1)).toFinset) \ S).erase ks :=
      Finset.sdiff_insert _ _ _
    by_cases hmem : hasTemplateAt s.root ks
    · have hksS : ks ∈ S := (hS ks).mp hmem
      have h1 : ((p :: l').map (fun p => keyPath3 p.1)).toFinset \ S
          = ((l'.map (fun p => keyPath3 p.1)).toFinset) \ S := by
        simp only [List.map_cons, List.toFinset_cons]
        rw [Finset.insert_sdiff_of_mem _ hksS]
      have h2 : ((l'.map (fun p => keyPath3 p.1)).toFinset) \ insert ks S
          = ((l'.map (fun p => keyPath3 p.1)).toFinset) \ S := by
        rw [Finset.insert_eq_self.mpr hksS]
      rw [if_pos hmem, h1, h2]
      omega
    · have hksS : ks ∉ S := fun hc => hmem ((hS ks).mpr hc)
      have h1 : ((p :: l').map (fun p => keyPath3 p.1)).toFinset \ S
          = insert ks (((l'.map (fun p => keyPath3 p.1)).toFinset) \ S) := by
        simp only [List.map_cons, List.toFinset_cons]
        rw [Finset.insert_sdiff_of_not_mem _ hksS]
      rw [if_neg hmem, h1, hsdiff]
      set X := ((l'.map (fun p => keyPath3 p.1)).toFinset) \ S with hX
      by_cases hkX : ks ∈ X
      · rw [Finset.insert_eq_self.mpr hkX]
        have := Finset.card_erase_of_mem hkX
        have hpos : 0 < X.card := Finset.card_pos.mpr ⟨ks, hkX⟩
        omega
      · rw [Finset.card_insert_of_not_mem hkX, Finset.erase_eq_of_not_mem hkX]
        omega

/-- `numTemplates` after any sequence of `add`s on a fresh store equals the
number of distinct key paths among the adds. -/
theorem numTemplates_eq_card_keyPaths {α : Type}
    (l : List ((String × String × String) × α)) :
    (addAll PatternMgr.new l).numTemplates
      = ((l.map (fun p => keyPath3 p.1)).toFinset).card := by
  have h := templateCount_addAll l PatternMgr.new ∅ (by
    intro ks
    simp [PatternMgr.new, hasTemplateAt_empty])
  simpa [PatternMgr.numTemplates, PatternMgr.new] using h

end Aiml

namespace Aiml

/-! ## The re-run match inside `wildcard`, as a named definition -/

/-- The `_match` call performed at the top of `wildcard` (same input
normalization as `wildcard`). -/
def PatternMgr.wildcardRematch {α : Type} (s : PatternMgr α)
    (pattern that topic : String) : MatchRes α :=
  let input_ := pyCollapseWS (puncStrip (pyUpper pattern))
  let that1 := if pyStripIsEmpty that then "ULTRABOGUSDUMMYTHAT" else that
  let thatInput := pyCollapseWS (puncStrip (pyUpper that1))
  let topic1 := if pyStripIsEmpty topic then "ULTRABOGUSDUMMYTOPIC" else topic
  let topicInput := pyCollapseWS (puncStrip (pyUpper topic1))
  matchNode s.botName (pySplit input_) (pySplit thatInput) (pySplit topicInput) s.root

/-- Fuel-indexed evaluator of `wildcardRematch`. -/
def PatternMgr.wildcardRematchF {α : Type} (s : PatternMgr α)
    (pattern that topic : String) : MatchRes α :=
  let input_ := pyCollapseWS (puncStrip (pyUpper pattern))
  let that1 := if pyStripIsEmpty that then "ULTRABOGUSDUMMYTHAT" else that
  let thatInput := pyCollapseWS (puncStrip (pyUpper that1))
  let topic1 := if pyStripIsEmpty topic then "ULTRABOGUSDUMMYTOPIC" else topic
  let topicInput := pyCollapseWS (puncStrip (pyUpper topic1))
  matchNodeF (nodeHeight s.root) s.botName (pySplit input_) (pySplit thatInput)
    (pySplit topicInput) s.root

theorem PatternMgr.wildcardRematch_eq_F {α : Type} (s : PatternMgr α)
    (pattern that topic : String) :
    s.wildcardRematch pattern that topic = s.wildcardRematchF pattern that topic := by
  simp only [PatternMgr.wildcardRematch, PatternMgr.wildcardRematchF,
    matchNodeF_eq s.botName (nodeHeight s.root) s.root (Nat.le_refl _)]

/-- With an unrecognized kind, `wildcardPost` returns `""` when the match
found no template (the early return), and raises otherwise. -/
theorem wildcardPost_unknown {α : Type} (wt : String) (i : Nat) (res : MatchRes α)
    (a b c d e f : String)
    (h1 : wt ≠ "caret") (h2 : wt ≠ "star") (h3 : wt ≠ "thatstar") (h4 : wt ≠ "topicstar") :
    wildcardPost wt i res a b c d e f
      = if res.2.isSome then Except.error kindErrMsg else Except.ok "" := by
  unfold wildcardPost
  cases hres : res.2 with
  | none => simp [hres]
  | some t => simp [hres, h1, h2, h3, h4]

/-! ## Underscore/star interchangeability inside the wildcard walk -/

/-- Replace each `UNDERSCORE` key by a `STAR` key. -/
def canonStar (k : Key) : Key := if k = _UNDERSCORE then _STAR else k

theorem canonStar_star_iff (k : Key) :
    (canonStar k = _STAR ∨ canonStar k = _UNDERSCORE) ↔ (k = _STAR ∨ k = _UNDERSCORE) := by
  by_cases h : k = _UNDERSCORE
  · subst h; decide
  · simp [canonStar, h]

theorem canonStar_caret_iff (k : Key) : canonStar k = _CARET ↔ k = _CARET := by
  by_cases h : k = _UNDERSCORE
  · subst h; decide
  · simp [canonStar, h]

theorem getD_map_canon : ∀ (l : List Key) (n : Nat),
    (l.map canonStar).getD n "" = canonStar (l.getD n "")
  | [], n => by cases n <;> rfl
  | a :: l, 0 => rfl
  | a :: l, n + 1 => getD_map_canon l n

theorem findFrom_none (ws : List String) (target : Key) (i : Nat)
    (h : ∀ w ∈ ws, w ≠ target) : findFrom ws target i = none := by
  unfold findFrom
  have : List.findIdx? (fun w => w = target) (ws.drop i) = none := by
    rw [List.findIdx?_eq_none_iff]
    intro x hx
    simp [h x (List.mem_of_mem_drop hx)]
  rw [this]; rfl

theorem scanSpan_canon (patMatch : List Key) (words : List String)
    (hw : ∀ w ∈ words, w ≠ _UNDERSCORE ∧ w ≠ _STAR) (j i : Nat) (e0 : Int) :
    scanSpan (patMatch.map canonStar) words j i e0 = scanSpan patMatch words j i e0 := by
  unfold scanSpan
  rw [List.length_map, getD_map_canon]
  by_cases hlen : j + 1 = patMatch.length
  · simp [hlen]
  · simp only [if_neg hlen]
    by_cases hu : patMatch.getD (j + 1) "" = _UNDERSCORE
    · rw [hu]
      rw [findFrom_none words _UNDERSCORE i (fun w hwm => (hw w hwm).1),
        findFrom_none words (canonStar _UNDERSCORE) i (fun w hwm => by
          have := (hw w hwm).2
          simpa [canonStar] using this)]
    · rw [show canonStar (patMatch.getD (j + 1) "") = patMatch.getD (j + 1) "" by
        unfold canonStar; rw [if_neg hu]]

theorem wildLoop_canon (patMatch : List Key) (words : List String) (index : Nat)
    (sk ck : Bool) (hw : ∀ w ∈ words, w ≠ _UNDERSCORE ∧ w ≠ _STAR) :
    ∀ (n i : Nat) (st : WalkSt),
    wildLoop (patMatch.map canonStar) words index sk ck n i st
      = wildLoop patMatch words index sk ck n i st
  | 0, i, st => rfl
  | n + 1, i, st => by
    rw [wildLoop, wildLoop]
    rw [List.length_map, getD_map_canon]
    by_cases h1 : i < st.k
    · simp only [if_pos h1, wildLoop_canon patMatch words index sk ck hw n]
    · simp only [if_neg h1]
      by_cases h2 : st.j = patMatch.length
      · simp only [if_pos h2]
      · simp only [if_neg h2]
        by_cases h3 : st.found
        · simp only [if_pos h3, wildLoop_canon patMatch words index sk ck hw n]
        · simp only [if_neg h3]
          by_cases h4 : patMatch.getD st.j "" = _STAR ∨ patMatch.getD st.j "" = _UNDERSCORE
          · simp only [if_pos ((canonStar_star_iff _).mpr h4), if_pos h4,
              scanSpan_canon patMatch words hw, wildLoop_canon patMatch words index sk ck hw n]
          · simp only [if_neg (fun hc => h4 ((canonStar_star_iff _).mp hc)), if_neg h4]
            by_cases h5 : patMatch.getD st.j "" = _CARET
            · simp only [if_pos ((canonStar_caret_iff _).mpr h5), if_pos h5,
                scanSpan_canon patMatch words hw, wildLoop_canon patMatch words index sk ck hw n]
            · simp only [if_neg (fun hc => h5 ((canonStar_caret_iff _).mp hc)), if_neg h5,
                wildLoop_canon patMatch words index sk ck hw n]

end Aiml

namespace Aiml

/-! ## Claims -/

/-- Claim C1: priority law.  For all templates `t1, t2, t3` and every insertion
order of `_ X ↦ t1`, `A X ↦ t2`, `* X ↦ t3` (no that/topic sections), matching
the utterance `A X` (empty that and topic) returns the template stored under
`_ X`, with the underscore path `[UNDERSCORE, X]`: at each recursion step the
matcher tries UNDERSCORE, then the literal word, then BOT_NAME, then CARET,
then STAR, returning on the first success. -/
theorem C1_underscore_beats_literal_beats_star :
    ∀ t1 t2 t3 : Nat,
    PatternMgr.match (((PatternMgr.new.add ("_ X", "", "") t1).add ("A X", "", "") t2).add
        ("* X", "", "") t3) "A X" "" "" = some ([_UNDERSCORE, "X"], t1)
    ∧ PatternMgr.match (((PatternMgr.new.add ("_ X", "", "") t1).add ("* X", "", "") t3).add
        ("A X", "", "") t2) "A X" "" "" = some ([_UNDERSCORE, "X"], t1)
    ∧ PatternMgr.match (((PatternMgr.new.add ("A X", "", "") t2).add ("_ X", "", "") t1).add
        ("* X", "", "") t3) "A X" "" "" = some ([_UNDERSCORE, "X"], t1)
    ∧ PatternMgr.match (((PatternMgr.new.add ("A X", "", "") t2).add ("* X", "", "") t3).add
        ("_ X", "", "") t1) "A X" "" "" = some ([_UNDERSCORE, "X"], t1)
    ∧ PatternMgr.match (((PatternMgr.new.add ("* X", "", "") t3).add ("_ X", "", "") t1).add
        ("A X", "", "") t2) "A X" "" "" = some ([_UNDERSCORE, "X"], t1)
    ∧ PatternMgr.match (((PatternMgr.new.add ("* X", "", "") t3).add ("A X", "", "") t2).add
        ("_ X", "", "") t1) "A X" "" "" = some ([_UNDERSCORE, "X"], t1) := by
  intro t1 t2 t3
  refine ⟨?_, ?_, ?_, ?_, ?_, ?_⟩ <;> (rw [PatternMgr.match_eq_F]; rfl)

/-- Claim C2 counterexample: with `I LIKE *` stored under empty that/topic,
`wildcard('star', "I like cats", "", "", 1)` raises a `ValueError` (the
matched path contains no `THAT` sentinel and `patMatch.index(self._THAT)`
fails); it does not return `"cats"`. -/
theorem C2_counterexample :
    PatternMgr.wildcard ((PatternMgr.new : PatternMgr Nat).add ("I LIKE *", "", "") 2)
        "star" "I like cats" "" "" 1 = Except.error "ValueError: 3 is not in list"
    ∧ PatternMgr.wildcard ((PatternMgr.new : PatternMgr Nat).add ("I LIKE *", "", "") 2)
        "star" "I like cats" "" "" 1 ≠ Except.ok "cats" := by
  have h : PatternMgr.wildcard ((PatternMgr.new : PatternMgr Nat).add ("I LIKE *", "", "") 2)
      "star" "I like cats" "" "" 1 = Except.error "ValueError: 3 is not in list" := by
    rw [PatternMgr.wildcard_eq_F]; rfl
  exact ⟨h, by rw [h]; simp⟩

/-- Claim C2 amended: `match("I like cats", "", "")` does return the template
of `I LIKE *`, but its path `[I, LIKE, STAR]` carries no `THAT` sentinel, so
`wildcard('star', …, 1)` raises `ValueError` instead of using the whole path
as the main slice; when the same pattern is stored with that pattern `*`
(path `[I, LIKE, STAR, THAT, STAR]`), `wildcard('star', …, 1)` returns
`"cats"`. -/
theorem C2_amended :
    PatternMgr.match ((PatternMgr.new : PatternMgr Nat).add ("I LIKE *", "", "") 2)
        "I like cats" "" "" = some (["I", "LIKE", _STAR], 2)
    ∧ PatternMgr.wildcard ((PatternMgr.new : PatternMgr Nat).add ("I LIKE *", "", "") 2)
        "star" "I like cats" "" "" 1 = Except.error "ValueError: 3 is not in list"
    ∧ PatternMgr.match ((PatternMgr.new : PatternMgr Nat).add ("I LIKE *", "*", "") 2)
        "I like cats" "" "" = some (["I", "LIKE", _STAR, _THAT, _STAR], 2)
    ∧ PatternMgr.wildcard ((PatternMgr.new : PatternMgr Nat).add ("I LIKE *", "*", "") 2)
        "star" "I like cats" "" "" 1 = Except.ok "cats" := by
  refine ⟨?_, ?_, ?_, ?_⟩
  · rw [PatternMgr.match_eq_F]; rfl
  · rw [PatternMgr.wildcard_eq_F]; rfl
  · rw [PatternMgr.match_eq_F]; rfl
  · rw [PatternMgr.wildcard_eq_F]; rfl

/-- Claim C3 counterexample: after `setBotName("Alice")` and storing
`BOT_NAME ROCKS ↦ 7`, `match("alice rocks", "", "")` returns no match (the
claim asserts it returns the template): the matcher compares the uppercased
input word `"ALICE"` with the stored name `"Alice"` case-sensitively. -/
theorem C3_counterexample :
    PatternMgr.match (((PatternMgr.new : PatternMgr Nat).add ("BOT_NAME ROCKS", "", "") 7).setBotName
      "Alice") "alice rocks" "" "" = none := by
  rw [PatternMgr.match_eq_F]; rfl

/-- Claim C3 amended: `setBotName` stores the whitespace-collapsed name
as-given (no case normalization), and the matcher compares the uppercased
first input word with that stored value, so bot-name matching succeeds only
when the stored name is already uppercase: with `setBotName("Alice")`,
`match("alice rocks", "", "")` finds nothing; with `setBotName("ALICE")` it
returns the template (and `match("bob rocks", "", "")` still fails). -/
theorem C3_amended :
    ((PatternMgr.new : PatternMgr Nat).setBotName "Alice").botName = "Alice"
    ∧ ((PatternMgr.new : PatternMgr Nat).setBotName " Alice  B ").botName = "Alice B"
    ∧ PatternMgr.match (((PatternMgr.new : PatternMgr Nat).add
        ("BOT_NAME ROCKS", "", "") 7).setBotName "Alice") "alice rocks" "" "" = none
    ∧ PatternMgr.match (((PatternMgr.new : PatternMgr Nat).add
        ("BOT_NAME ROCKS", "", "") 7).setBotName "ALICE") "alice rocks" "" ""
      = some (["ALICE", "ROCKS"], 7)
    ∧ PatternMgr.match (((PatternMgr.new : PatternMgr Nat).add
        ("BOT_NAME ROCKS", "", "") 7).setBotName "ALICE") "bob rocks" "" "" = none := by
  refine ⟨by decide, by decide, ?_, ?_, ?_⟩ <;> (rw [PatternMgr.match_eq_F]; decide)

/-- Claim C4 counterexample: two `add` calls with distinct
`(pattern, that, topic)` string triples (`("*","","")` and `("1","","")`)
produce `numTemplates() = 1`, not 2: both triples walk the same key path
`[STAR]`, and the second add overwrites the first template. -/
theorem C4_counterexample :
    (((PatternMgr.new : PatternMgr Nat).add ("*", "", "") 1).add ("1", "", "") 2).numTemplates = 1
    ∧ (("*", "", "") : String × String × String) ≠ ("1", "", "") := by
  exact ⟨by decide, by decide⟩

/-- Claim C4 amended: `numTemplates()` after any sequence of `add` calls on a
fresh store equals the number of distinct derived key paths (pattern words
with sentinel substitution, plus the optional THAT/TOPIC sections) among the
calls; the counter is bumped exactly once per first-time template insertion
at a node.  The hypothesis that no derived key equals the TEMPLATE sentinel
marks the domain on which the association-list model coincides with the
source's dict (a word aliasing the key `"2"` would corrupt the source trie). -/
theorem C4_amended {α : Type} (l : List ((String × String × String) × α))
    (_hwf : ∀ p ∈ l, _TEMPLATE ∉ keyPath3 p.1) :
    (addAll PatternMgr.new l).numTemplates
      = ((l.map (fun p => keyPath3 p.1)).toFinset).card :=
  numTemplates_eq_card_keyPaths l

/-- Claim C4 witness: a concrete run of the amended statement. -/
theorem C4_amended_witness :
    (∀ p ∈ ([(("A X", "", ""), 1), (("A X", "", ""), 2), (("B", "", ""), 3)]
        : List ((String × String × String) × Nat)), _TEMPLATE ∉ keyPath3 p.1)
    ∧ (addAll PatternMgr.new ([(("A X", "", ""), 1), (("A X", "", ""), 2), (("B", "", ""), 3)]
        : List ((String × String × String) × Nat))).numTemplates
      = (((([(("A X", "", ""), 1), (("A X", "", ""), 2), (("B", "", ""), 3)]
        : List ((String × String × String) × Nat)).map (fun p => keyPath3 p.1))).toFinset).card :=
  ⟨by decide, C4_amended _ (by decide)⟩

/-- Claim C5 counterexample: the normalizer does not keep ordinary words
apart from the sentinel keys: `"1"` is a normalized word, its pattern key
equals the STAR sentinel, adding `1 X` walks the same path as `* X`, and a
store holding only the pattern `1 X` matches the utterance `hey x` as a star
wildcard. -/
theorem C5_counterexample :
    patternKey "1" = _STAR
    ∧ pySplit (puncStrip (pyUpper "a 1 b")) = ["A", "1", "B"]
    ∧ keyPath "1 X" "" "" = keyPath "* X" "" ""
    ∧ PatternMgr.match ((PatternMgr.new : PatternMgr Nat).add ("1 X", "", "") 4)
        "hey x" "" "" = some ([_STAR, "X"], 4) := by
  refine ⟨by decide, by decide, by decide, ?_⟩
  rw [PatternMgr.match_eq_F]; decide

/-- Claim C5 amended: the key stored for a pattern word `w` is one of the
seven sentinel keys exactly when `w` is one of the four substituted tokens
`_`, `*`, `^`, `BOT_NAME` or is itself one of the digit strings `0`–`6`;
ordinary words other than those digits never create or follow a sentinel
edge. -/
theorem C5_amended (w : String) :
    (patternKey w = _UNDERSCORE ∨ patternKey w = _STAR ∨ patternKey w = _TEMPLATE
      ∨ patternKey w = _THAT ∨ patternKey w = _TOPIC ∨ patternKey w = _BOT_NAME
      ∨ patternKey w = _CARET)
    ↔ w ∈ (["_", "*", "^", "BOT_NAME", "0", "1", "2", "3", "4", "5", "6"] : List String) := by
  simp only [patternKey, List.mem_cons, List.not_mem_nil, or_false]
  split_ifs with h1 h2 h3 h4
  · subst h1; decide
  · subst h2; decide
  · subst h3; decide
  · subst h4; decide
  · constructor
    · intro h; tauto
    · intro h
      rcases h with h | h | h | h | h
      · exact absurd h h1
      · exact absurd h h2
      · exact absurd h h3
      · exact absurd h h4
      · tauto

/-- Claim C6 counterexample: the empty utterance is not treated by the
end-of-input rules: with `^ ↦ 5` stored, `match("", "", "")` returns `None`
(the `len(pattern) == 0` early return), although the same store matches the
punctuation-only utterance `"?!."` through the root caret, which is what the
end-of-input rules produce for an empty word list. -/
theorem C6_counterexample :
    PatternMgr.match ((PatternMgr.new : PatternMgr Nat).add ("^", "", "") 5) "" "" "" = none
    ∧ PatternMgr.match ((PatternMgr.new : PatternMgr Nat).add ("^", "", "") 5) "?!." "" ""
      = some ([_CARET], 5) := by
  refine ⟨?_, ?_⟩ <;> (rw [PatternMgr.match_eq_F]; decide)

/-- Claim C6 amended: a non-empty utterance whose normalization is the empty
word list (e.g. punctuation-only) reaches the matcher and follows the
end-of-input rules — a `CARET` child first, else the `THAT` descent, else the
`TOPIC` descent, else the `TEMPLATE` at the current node, else no match —
while the empty utterance itself short-circuits to `None` before matching. -/
theorem C6_amended :
    pySplit (puncStrip (pyUpper "?!.")) = []
    ∧ pySplit (puncStrip (pyUpper "")) = []
    ∧ PatternMgr.match ((PatternMgr.new : PatternMgr Nat).add ("^", "", "") 5) "" "" "" = none
    ∧ PatternMgr.match ((PatternMgr.new : PatternMgr Nat).add ("^", "", "") 5) "?!." "" ""
      = some ([_CARET], 5)
    ∧ PatternMgr.match ((PatternMgr.new : PatternMgr Nat).add ("", "HI", "") 3) "?" "hi" ""
      = some ([_THAT, "HI"], 3)
    ∧ PatternMgr.match ((PatternMgr.new : PatternMgr Nat).add ("", "", "") 9) "?" "" ""
      = some (([] : List Key), 9)
    ∧ PatternMgr.match (PatternMgr.new : PatternMgr Nat) "?" "" "" = none := by
  refine ⟨by decide, by decide, ?_, ?_, ?_, ?_, ?_⟩ <;> (rw [PatternMgr.match_eq_F]; decide)

/-- Claim C7 counterexample: an unrecognized wildcard kind does not always
raise: when the re-run match finds no template (here: the empty store), the
early `return ""` fires before the kind is ever examined. -/
theorem C7_counterexample :
    PatternMgr.wildcard (PatternMgr.new : PatternMgr Nat) "bogus" "hello" "" "" 1
      = Except.ok ""
    ∧ PatternMgr.wildcard (PatternMgr.new : PatternMgr Nat) "bogus" "hello" "" "" 1
      ≠ Except.error kindErrMsg := by
  have h : PatternMgr.wildcard (PatternMgr.new : PatternMgr Nat) "bogus" "hello" "" "" 1
      = Except.ok "" := by
    rw [PatternMgr.wildcard_eq_F]; rfl
  exact ⟨h, by rw [h]; simp⟩

/-- Claim C7 amended: for every store and input, `wildcard` with a kind
outside `{caret, star, thatstar, topicstar}` raises the invalid-argument
`ValueError` exactly when the re-run match finds a template; when the match
fails, it returns the empty string without error.  (The operation reads the
store only; in this embedding it is a pure function of the store.) -/
theorem C7_amended {α : Type} (s : PatternMgr α)
    (wildcardType pattern that topic : String) (index : Nat)
    (h : wildcardType ∉ (["caret", "star", "thatstar", "topicstar"] : List String)) :
    s.wildcard wildcardType pattern that topic index
      = if (s.wildcardRematch pattern that topic).2.isSome then Except.error kindErrMsg
        else Except.ok "" := by
  have h1 : wildcardType ≠ "caret" := fun hc => h (by simp [hc])
  have h2 : wildcardType ≠ "star" := fun hc => h (by simp [hc])
  have h3 : wildcardType ≠ "thatstar" := fun hc => h (by simp [hc])
  have h4 : wildcardType ≠ "topicstar" := fun hc => h (by simp [hc])
  simp only [PatternMgr.wildcard, PatternMgr.wildcardRematch]
  rw [wildcardPost_unknown _ _ _ _ _ _ _ _ _ h1 h2 h3 h4]

/-- Claim C7 witness: a concrete run of the amended statement, on a store
where the match succeeds, so the error is raised. -/
theorem C7_amended_witness :
    ("bogus" ∉ (["caret", "star", "thatstar", "topicstar"] : List String))
    ∧ PatternMgr.wildcard ((PatternMgr.new : PatternMgr Nat).add ("HI", "", "") 1)
        "bogus" "hi" "" "" 1 = Except.error kindErrMsg := by
  refine ⟨by decide, ?_⟩
  rw [C7_amended ((PatternMgr.new : PatternMgr Nat).add ("HI", "", "") 1)
    "bogus" "hi" "" "" 1 (by decide)]
  have h : (PatternMgr.wildcardRematch ((PatternMgr.new : PatternMgr Nat).add ("HI", "", "") 1)
      "hi" "" "").2 = some 1 := by
    rw [PatternMgr.wildcardRematch_eq_F]; rfl
  rw [h]; rfl

/-- Claim C8 counterexample: when the bot-name edge is taken, the returned
path contains the literal (uppercased) input word, not the `BOT_NAME`
sentinel: the source prepends `first` on that branch. -/
theorem C8_counterexample :
    PatternMgr.match (((PatternMgr.new : PatternMgr Nat).add
        ("BOT_NAME ROCKS", "", "") 7).setBotName "ALICE") "alice rocks" "" ""
      = some (["ALICE", "ROCKS"], 7)
    ∧ (["ALICE", "ROCKS"] : List Key) ≠ [_BOT_NAME, "ROCKS"] := by
  refine ⟨?_, by decide⟩
  rw [PatternMgr.match_eq_F]; decide

/-- Claim C8 amended: a successful path lists the trie keys chosen at each
level, with the sentinels `UNDERSCORE`, `STAR`, `CARET`, `THAT`, `TOPIC`
appearing for their edges — except the bot-name edge, which contributes the
matched input word instead of the `BOT_NAME` sentinel. -/
theorem C8_amended :
    PatternMgr.match ((PatternMgr.new : PatternMgr Nat).add
        ("HELLO", "HOW ARE YOU", "GREETING") 4) "hello" "How are you?" "greeting"
      = some (["HELLO", _THAT, "HOW", "ARE", "YOU", _TOPIC, "GREETING"], 4)
    ∧ PatternMgr.match ((PatternMgr.new : PatternMgr Nat).add ("_ Y *", "", "") 8)
        "q y z w" "" "" = some ([_UNDERSCORE, "Y", _STAR], 8)
    ∧ PatternMgr.match ((PatternMgr.new : PatternMgr Nat).add ("^ CATS", "", "") 6)
        "cats" "" "" = some ([_CARET, "CATS"], 6)
    ∧ PatternMgr.match (((PatternMgr.new : PatternMgr Nat).add
        ("BOT_NAME ROCKS", "", "") 7).setBotName "ALICE") "alice rocks" "" ""
      = some (["ALICE", "ROCKS"], 7) := by
  refine ⟨?_, ?_, ?_, ?_⟩ <;> (rw [PatternMgr.match_eq_F]; decide)

/-- Claim C9: round-trip persistence.  `restore(save(S))` rebuilds exactly
`S` (the blob carries `templateCount`, `botName` and the root node), so every
subsequently observable behavior — `match`, `wildcard`, `numTemplates` — is
unchanged. -/
theorem C9_roundtrip : ∀ (α : Type) (S : PatternMgr α),
    PatternMgr.restore (PatternMgr.save S) = S
    ∧ (∀ pattern that topic,
        PatternMgr.match (PatternMgr.restore (PatternMgr.save S)) pattern that topic
          = PatternMgr.match S pattern that topic)
    ∧ (∀ wildcardType pattern that topic index,
        PatternMgr.wildcard (PatternMgr.restore (PatternMgr.save S))
            wildcardType pattern that topic index
          = PatternMgr.wildcard S wildcardType pattern that topic index)
    ∧ (PatternMgr.restore (PatternMgr.save S)).numTemplates = S.numTemplates := by
  intro α S
  exact ⟨rfl, fun _ _ _ => rfl, fun _ _ _ _ _ => rfl, rfl⟩

/-- Claim C10: the locator's `star` kinds share one counter over STAR and
UNDERSCORE entries of the matched slice.  Concretely, with `_ B * / *` stored
and the utterance `x b y z`, the matched main slice is
`[UNDERSCORE, B, STAR]`, `wildcard('star', …, 1)` returns the underscore's
capture `"x"`, and the star's capture `"y z"` is found at index 2.  In
general, replacing every UNDERSCORE key of the walked slice by a STAR key
leaves the whole walk unchanged (whenever no input word collides with those
two sentinel keys), so underscores and stars are counted identically. -/
theorem C10_shared_star_counter :
    (PatternMgr.match ((PatternMgr.new : PatternMgr Nat).add ("_ B *", "*", "") 9)
        "x b y z" "w" "" = some ([_UNDERSCORE, "B", _STAR, _THAT, _STAR], 9)
      ∧ PatternMgr.wildcard ((PatternMgr.new : PatternMgr Nat).add ("_ B *", "*", "") 9)
          "star" "x b y z" "w" "" 1 = Except.ok "x"
      ∧ PatternMgr.wildcard ((PatternMgr.new : PatternMgr Nat).add ("_ B *", "*", "") 9)
          "star" "x b y z" "w" "" 2 = Except.ok "y z")
    ∧ (∀ (patMatch : List Key) (words : List String) (index : Nat) (sk ck : Bool)
        (n i : Nat) (st : WalkSt),
        (∀ w ∈ words, w ≠ _UNDERSCORE ∧ w ≠ _STAR) →
        wildLoop (patMatch.map canonStar) words index sk ck n i st
          = wildLoop patMatch words index sk ck n i st) := by
  refine ⟨⟨?_, ?_, ?_⟩, ?_⟩
  · rw [PatternMgr.match_eq_F]; decide
  · rw [PatternMgr.wildcard_eq_F]; rfl
  · rw [PatternMgr.wildcard_eq_F]; rfl
  · intro patMatch words index sk ck n i st hw
    exact wildLoop_canon patMatch words index sk ck hw n i st

/-- Claim C10 witness: the general part of the statement at a concrete slice
and word vector. -/
theorem C10_shared_star_counter_witness :
    (∀ w ∈ (["X", "B"] : List String), w ≠ _UNDERSCORE ∧ w ≠ _STAR)
    ∧ wildLoop (([_UNDERSCORE, "B"] : List Key).map canonStar) ["X", "B"] 1 true false 2 0 initWalk
      = wildLoop ([_UNDERSCORE, "B"] : List Key) ["X", "B"] 1 true false 2 0 initWalk :=
  ⟨by decide, C10_shared_star_counter.2 [_UNDERSCORE, "B"] ["X", "B"] 1 true false 2 0 initWalk
    (by decide)⟩

end Aiml
